import Mathlib

/-!
Shallow embedding of the `taskmanager` repository (a Django task/project
tracker) and proofs of the specification claims about it.

The embedding follows the source files:
  * `src/tasks/models.py`   — the `Project` and `Task` entities;
  * `src/tasks/views.py`    — `get_user_flags`, `user_login`, `dashboard`,
    `project_detail`, `create_project`, `create_task`;
  * `src/tasks/forms.py`    — `ProjectForm` and `TaskForm` field lists and
    the required/optional status each form field inherits from the model;
  * `src/taskmanager/settings.py` — environment-derived configuration.

Django users are modelled as records of the identity state the views
consult (staff/superuser bits, group names, username, password); an
anonymous (unauthenticated) caller is `Option.none`.  The relational store
is a record of lists of rows; primary keys are `Nat`.  Timestamps are `Nat`
(only their ordering matters).  Form submissions are records of optional
fields: `none` models a field absent from the POST data, mirroring how a
Django form treats a missing key.
-/

namespace Taskmanager

/-- An authenticated Django user: the identity state read by the views.
`groups` is the list of group names the user belongs to; `password` stands
for the stored credential checked by `authenticate`. -/
structure DjUser where
  id : Nat
  username : String
  password : String
  is_staff : Bool
  is_superuser : Bool
  groups : List String
deriving Repr, DecidableEq

/-- `tasks/models.py` `Project`: `name` (CharField, max_length 200),
`description` (TextField, blank=True), `manager` (FK to User,
null=True/blank=True, SET_NULL), `created_at` (defaults to now). -/
structure Project where
  id : Nat
  name : String
  description : String
  manager : Option Nat
  created_at : Nat
deriving Repr, DecidableEq

/-- `tasks/models.py` `Task`: `title` (CharField, max_length 200),
`description` (TextField, blank=True), `project` (FK to Project, CASCADE,
required), `assigned_to` (FK to User, null=True/blank=True, SET_NULL),
`status` (choices todo/in_progress/done, default "todo"), `due_date`
(DateField, null=True/blank=True), `created_at` (defaults to now). -/
structure Task where
  id : Nat
  title : String
  description : String
  project : Nat
  assigned_to : Option Nat
  status : String
  due_date : Option Nat
  created_at : Nat
deriving Repr, DecidableEq

/-- The persisted relational store plus the auth user table.  `nextProjectId`
and `nextTaskId` model the database auto-increment primary keys. -/
structure Store where
  users : List DjUser
  projects : List Project
  tasks : List Task
  nextProjectId : Nat
  nextTaskId : Nat
deriving Repr, DecidableEq

/-- The pair of role flags returned by the access-control resolver. -/
structure Flags where
  is_admin : Bool
  is_manager : Bool
deriving Repr, DecidableEq

/-- `views.py` `get_user_flags`: an unauthenticated caller (modelled as
`none`) gets both flags false; otherwise `is_admin` is
`is_superuser or is_staff or groups.filter(name='Admin').exists()` and
`is_manager` is `groups.filter(name='Manager').exists()`. -/
def get_user_flags : Option DjUser → Flags
  | none => { is_admin := false, is_manager := false }
  | some user =>
      { is_admin := user.is_superuser || user.is_staff || user.groups.contains "Admin",
        is_manager := user.groups.contains "Manager" }

/-- HTTP method of a request, as the views branch on `request.method`. -/
inductive Method
  | get
  | post
deriving Repr, DecidableEq

/-- `django.contrib.auth.authenticate`: credential lookup against the user
table; returns the matching user or `none`. -/
def authenticate (users : List DjUser) (username password : String) : Option DjUser :=
  users.find? (fun u => u.username == username && u.password == password)

/-- `django.contrib.auth.forms.AuthenticationForm.is_valid()`: both fields
are required, and the form's own `clean` authenticates the credentials, so
a bound form is valid exactly when both fields are nonempty and the
credentials resolve to a user. -/
def authFormIsValid (users : List DjUser) (username password : String) : Bool :=
  username != "" && password != "" && (authenticate users username password).isSome

/-- Outcome of the login view: either the login page is (re-)rendered, or
the caller is redirected to the dashboard. -/
inductive LoginResponse
  | renderLogin
  | redirectDashboard
deriving Repr, DecidableEq

/-- Result of `user_login`: `sessionUser` is the identity passed to
`auth_login` (`none` when no session is established), plus the response and
the one-shot messages enqueued during the request. -/
structure LoginResult where
  sessionUser : Option DjUser
  response : LoginResponse
  messages : List String
deriving Repr, DecidableEq

/-- `views.py` `user_login`: on POST, validate the authentication form; on
validity authenticate; if the action selector is "admin", additionally
require `is_staff or is_superuser or Admin-group membership`, else reject
without logging in; otherwise establish the session and redirect to the
dashboard. -/
def user_login (users : List DjUser) (method : Method)
    (username password action : String) : LoginResult :=
  match method with
  | .get => { sessionUser := none, response := .renderLogin, messages := [] }
  | .post =>
    if authFormIsValid users username password then
      match authenticate users username password with
      | none =>
          { sessionUser := none, response := .renderLogin,
            messages := ["Invalid username or password."] }
      | some user =>
          if action == "admin"
              && !(user.is_staff || user.is_superuser || user.groups.contains "Admin") then
            { sessionUser := none, response := .renderLogin,
              messages := ["You are not allowed to login as admin."] }
          else
            { sessionUser := some user, response := .redirectDashboard,
              messages := ["Welcome back, " ++ user.username ++ "!"] }
    else
      { sessionUser := none, response := .renderLogin,
        messages := ["Please correct the errors below."] }

/-- `order_by('-created_at')`: sort newest-created first. -/
def createdDesc (a b : Project) : Prop := b.created_at ≤ a.created_at

instance : DecidableRel createdDesc := fun a b => Nat.decLe b.created_at a.created_at

instance : IsTotal Project createdDesc :=
  ⟨fun a b => Nat.le_total b.created_at a.created_at⟩

instance : IsTrans Project createdDesc :=
  ⟨fun _ _ _ h h2 => Nat.le_trans h2 h⟩

/-- The ordered queryset `....order_by('-created_at')`. -/
def orderByCreatedDesc (ps : List Project) : List Project :=
  ps.insertionSort createdDesc

/-- The reverse accessor `project.tasks.all()`: all task rows whose
`project` foreign key is `pid`. -/
def tasksOf (store : Store) (pid : Nat) : List Task :=
  store.tasks.filter (fun t => t.project == pid)

/-- `views.py` `dashboard` (the role-filtered project listing): admins see
every project; managers see `filter(manager=user)`; plain users see
`filter(tasks__assigned_to=user).distinct()` — the project-table rows that
have at least one task assigned to the caller (`distinct` collapses the
join multiplicity back to one row per project); each branch is ordered by
descending `created_at`. -/
def dashboard (store : Store) (user : DjUser) : List Project :=
  let flags := get_user_flags (some user)
  if flags.is_admin then
    orderByCreatedDesc store.projects
  else if flags.is_manager then
    orderByCreatedDesc (store.projects.filter (fun p => p.manager == some user.id))
  else
    orderByCreatedDesc (store.projects.filter (fun p =>
      store.tasks.any (fun t => t.project == p.id && t.assigned_to == some user.id)))

/-- The `project_tasks` mapping the dashboard builds: `project.id ->
project.tasks.all()` for each listed project. -/
def dashboard_project_tasks (store : Store) (user : DjUser) : List (Nat × List Task) :=
  (dashboard store user).map (fun p => (p.id, tasksOf store p.id))

/-- Outcome of the project-detail view: 404, or the page with the project
and its full task set. -/
inductive DetailResponse
  | notFound
  | page (project : Project) (tasks : List Task)
deriving Repr, DecidableEq

/-- `views.py` `project_detail`: `get_object_or_404(Project, pk=pk)` then
render the project with `project.tasks.all()`; no role or ownership
filtering (the caller is only used for the template flags). -/
def project_detail (store : Store) (_user : DjUser) (pk : Nat) : DetailResponse :=
  match store.projects.find? (fun p => p.id == pk) with
  | none => .notFound
  | some project => .page project (tasksOf store project.id)

/-- The POST data a `ProjectForm` reads: exactly the fields `['name',
'description', 'manager']` of `forms.py`; `none` models a field absent
from the submission.  A submitted `manager` is a user primary key. -/
structure ProjectPostData where
  name : Option String
  description : Option String
  manager : Option Nat
deriving Repr, DecidableEq

/-- `ProjectForm.is_valid()`: the form fields inherit their constraints
from the model — `name` is a required `CharField(max_length=200)` (present,
nonempty, at most 200 characters); `description` has `blank=True` so it is
optional; `manager` has `blank=True`/`null=True` so it is optional, but a
submitted value must resolve to an existing user (ModelChoiceField). -/
def projectFormIsValid (store : Store) (d : ProjectPostData) : Bool :=
  d.name.getD "" != "" && (d.name.getD "").length ≤ 200 &&
    (match d.manager with
     | none => true
     | some uid => store.users.any (fun u => u.id == uid))

/-- `ProjectForm.save()`: build the model instance from the cleaned data,
with the model defaults for omitted optional fields (`description` defaults
to empty, `manager` to null, `created_at` to now) and the next
auto-increment primary key. -/
def projectFromForm (store : Store) (d : ProjectPostData) (now : Nat) : Project :=
  { id := store.nextProjectId, name := d.name.getD "",
    description := d.description.getD "", manager := d.manager,
    created_at := now }

/-- Outcome of the project-creation view. -/
inductive CPResponse
  | permissionRedirect
  | created (pk : Nat)
  | invalidForm
  | emptyForm (initialManager : Option Nat)
deriving Repr, DecidableEq

/-- Result of `create_project`: the store after the request, the response,
and the one-shot messages enqueued. -/
structure CPResult where
  store : Store
  response : CPResponse
  messages : List String
deriving Repr, DecidableEq

/-- `views.py` `create_project`: gate on `is_admin or is_manager` (else
error message and redirect to dashboard); on POST validate and save, then
redirect to the new project's detail page, or re-render with errors; on GET
render a form whose `manager` field is pre-filled with the caller when the
caller is a manager. -/
def create_project (store : Store) (user : DjUser) (method : Method)
    (d : ProjectPostData) (now : Nat) : CPResult :=
  let flags := get_user_flags (some user)
  if !(flags.is_admin || flags.is_manager) then
    { store := store, response := .permissionRedirect,
      messages := ["You don't have permission to create a project."] }
  else
    match method with
    | .post =>
      if projectFormIsValid store d then
        let p := projectFromForm store d now
        let store2 := { store with projects := store.projects ++ [p],
                                   nextProjectId := store.nextProjectId + 1 }
        { store := store2, response := .created p.id,
          messages := ["Project created."] }
      else
        { store := store, response := .invalidForm,
          messages := ["Please fix the errors in the form."] }
    | .get =>
      let initial := if flags.is_manager then some user.id else none
      { store := store, response := .emptyForm initial, messages := [] }

/-- The POST data a `TaskForm` reads: exactly the fields `['title',
'description', 'assigned_to']` of `forms.py` — in particular there is no
`project`, `status` or `due_date` field, so a submission can never carry
them. -/
structure TaskPostData where
  title : Option String
  description : Option String
  assigned_to : Option Nat
deriving Repr, DecidableEq

/-- `TaskForm.is_valid()`: `title` is a required `CharField(max_length=200)`;
`description` (`blank=True`) and `assigned_to` (`blank=True`/`null=True`)
are optional, and a submitted `assigned_to` must resolve to an existing
user. -/
def taskFormIsValid (store : Store) (d : TaskPostData) : Bool :=
  d.title.getD "" != "" && (d.title.getD "").length ≤ 200 &&
    (match d.assigned_to with
     | none => true
     | some uid => store.users.any (fun u => u.id == uid))

/-- `form.save(commit=False)` followed by `task.project = project` and
`task.save()`: the instance takes the form's fields, the handler sets the
project foreign key to the URL's project, and the model defaults fill
`status := "todo"` and `due_date := none`. -/
def taskFromForm (store : Store) (d : TaskPostData) (projectPk now : Nat) : Task :=
  { id := store.nextTaskId, title := d.title.getD "",
    description := d.description.getD "", project := projectPk,
    assigned_to := d.assigned_to, status := "todo", due_date := none,
    created_at := now }

/-- Outcome of the task-creation view. -/
inductive CTResponse
  | notFound
  | permissionRedirect (projectPk : Nat)
  | created (projectPk : Nat)
  | invalidForm
  | emptyForm
deriving Repr, DecidableEq

/-- Result of `create_task`. -/
structure CTResult where
  store : Store
  response : CTResponse
  messages : List String
deriving Repr, DecidableEq

/-- `views.py` `create_task`: `get_object_or_404(Project, pk=pk)` first;
then the same `is_admin or is_manager` gate (else error message and
redirect to the project's detail page); on POST validate, attach the new
task to the URL's project and save, then redirect to project detail, or
re-render with errors; on GET render an empty form. -/
def create_task (store : Store) (user : DjUser) (pk : Nat) (method : Method)
    (d : TaskPostData) (now : Nat) : CTResult :=
  match store.projects.find? (fun p => p.id == pk) with
  | none => { store := store, response := .notFound, messages := [] }
  | some project =>
    let flags := get_user_flags (some user)
    if !(flags.is_admin || flags.is_manager) then
      { store := store, response := .permissionRedirect project.id,
        messages := ["You don't have permission to add a task."] }
    else
      match method with
      | .post =>
        if taskFormIsValid store d then
          let t := taskFromForm store d project.id now
          let store2 := { store with tasks := store.tasks ++ [t],
                                     nextTaskId := store.nextTaskId + 1 }
          { store := store2, response := .created project.id,
            messages := ["Task created."] }
        else
          { store := store, response := .invalidForm,
            messages := ["Please fix the errors in the form."] }
      | .get =>
        { store := store, response := .emptyForm, messages := [] }

/-- The hardcoded fallback secret in `settings.py` line 13. -/
def DEFAULT_SECRET_KEY : String := "m-jcq5+63ptwwc1xufy00^6*$w^f%em1)#tqh&oa#p_*nmc+p4"

/-- Python's `str.lower` on an ASCII character, as applied to the DEBUG
environment value. -/
def lowerChar (c : Char) : Char :=
  if 65 ≤ c.toNat ∧ c.toNat ≤ 90 then Char.ofNat (c.toNat + 32) else c

/-- Python's `str.lower` over the characters of a string. -/
def lowerString (s : String) : String := ⟨s.data.map lowerChar⟩

/-- Character-level splitting used by `str.split(',')`. -/
def splitChars (sep : Char) : List Char → List (List Char)
  | [] => [[]]
  | c :: cs =>
    let r := splitChars sep cs
    if c = sep then [] :: r
    else
      match r with
      | [] => [[c]]
      | h :: t => (c :: h) :: t

/-- Python's `str.split(sep)` for a one-character separator. -/
def splitOnChar (s : String) (sep : Char) : List String :=
  (splitChars sep s.data).map (fun l => ⟨l⟩)

/-- The environment-derived settings of `taskmanager/settings.py`. -/
structure Settings where
  secretKey : String
  debug : Bool
  allowedHosts : List String
deriving Repr, DecidableEq

/-- `settings.py` module evaluation over an environment (a map from
variable name to optional value):
`SECRET_KEY = os.environ.get('SECRET_KEY', <default>)`,
`DEBUG = os.environ.get('DEBUG', 'False').lower() == 'true'`,
`ALLOWED_HOSTS = os.environ.get('ALLOWED_HOSTS', '127.0.0.1,localhost').split(',')`.
The result is `Option Settings` so that a failing startup would be `none`;
no lookup here can fail, since every `os.environ.get` carries a default. -/
def loadSettings (env : String → Option String) : Option Settings :=
  some { secretKey := (env "SECRET_KEY").getD DEFAULT_SECRET_KEY,
         debug := lowerString ((env "DEBUG").getD "False") == "true",
         allowedHosts :=
           splitOnChar ((env "ALLOWED_HOSTS").getD "127.0.0.1,localhost") ',' }

/-! ### Concrete fixtures used by witnesses and counterexamples -/

/-- A manager: member of the "Manager" group only. -/
def uAlice : DjUser :=
  { id := 1, username := "alice", password := "pw1", is_staff := false,
    is_superuser := false, groups := ["Manager"] }

/-- A staff admin: `is_staff` set, no groups. -/
def uBob : DjUser :=
  { id := 2, username := "bob", password := "pw2", is_staff := true,
    is_superuser := false, groups := [] }

/-- A member of both the "Admin" and the "Manager" groups. -/
def uCarol : DjUser :=
  { id := 3, username := "carol", password := "pw3", is_staff := false,
    is_superuser := false, groups := ["Admin", "Manager"] }

/-- A plain user: no privilege bits, no groups. -/
def uDave : DjUser :=
  { id := 4, username := "dave", password := "pw4", is_staff := false,
    is_superuser := false, groups := [] }

/-- A project managed by Alice. -/
def pAlpha : Project :=
  { id := 1, name := "Alpha", description := "first", manager := some 1,
    created_at := 10 }

/-- A project with no manager. -/
def pBeta : Project :=
  { id := 2, name := "Beta", description := "", manager := none,
    created_at := 20 }

/-- A task of project 1 assigned to Dave. -/
def tOne : Task :=
  { id := 1, title := "T1", description := "", project := 1,
    assigned_to := some 4, status := "todo", due_date := none, created_at := 5 }

/-- A second task of project 1, also assigned to Dave. -/
def tTwo : Task :=
  { id := 2, title := "T2", description := "", project := 1,
    assigned_to := some 4, status := "in_progress", due_date := some 99,
    created_at := 6 }

/-- The base concrete store. -/
def baseStore : Store :=
  { users := [uAlice, uBob, uCarol, uDave], projects := [pAlpha, pBeta],
    tasks := [tOne, tTwo], nextProjectId := 3, nextTaskId := 3 }

/-! ### Claims -/

/-- C1: the access-control resolver returns `is_admin = true` exactly when
the identity is authenticated and has staff privilege, or superuser
privilege, or membership in the "Admin" group; `is_manager = true` exactly
when it is authenticated and belongs to the "Manager" group; and both
flags false for every unauthenticated identity. -/
theorem C1_user_flags (ou : Option DjUser) :
    ((get_user_flags ou).is_admin = true ↔
        ∃ u, ou = some u ∧
          (u.is_staff = true ∨ u.is_superuser = true ∨ "Admin" ∈ u.groups)) ∧
    ((get_user_flags ou).is_manager = true ↔
        ∃ u, ou = some u ∧ "Manager" ∈ u.groups) ∧
    get_user_flags none = { is_admin := false, is_manager := false } := by
  refine ⟨?_, ?_, rfl⟩ <;> cases ou <;> (simp [get_user_flags]; try tauto)

/-- Witness for C1 at the concrete identity `uCarol`. -/
theorem C1_user_flags_witness :
    ((get_user_flags (some uCarol)).is_admin = true ↔
        ∃ u, some uCarol = some u ∧
          (u.is_staff = true ∨ u.is_superuser = true ∨ "Admin" ∈ u.groups)) ∧
    ((get_user_flags (some uCarol)).is_manager = true ↔
        ∃ u, some uCarol = some u ∧ "Manager" ∈ u.groups) ∧
    get_user_flags none = { is_admin := false, is_manager := false } :=
  C1_user_flags (some uCarol)

/-- C2: for every store whose project primary keys are distinct and every
authenticated caller, the dashboard returns: for an admin, every project in
the store ordered by descending `created_at`; for a (non-admin) manager,
exactly the projects whose `manager` equals the caller; otherwise exactly
the distinct projects having at least one task assigned to the caller, with
no project listed twice. -/
theorem C2_dashboard (store : Store) (user : DjUser)
    (hids : (store.projects.map Project.id).Nodup) :
    ((get_user_flags (some user)).is_admin = true →
        List.Perm (dashboard store user) store.projects ∧
        List.Sorted createdDesc (dashboard store user)) ∧
    ((get_user_flags (some user)).is_admin = false →
      (get_user_flags (some user)).is_manager = true →
        ∀ p, p ∈ dashboard store user ↔
          p ∈ store.projects ∧ p.manager = some user.id) ∧
    ((get_user_flags (some user)).is_admin = false →
      (get_user_flags (some user)).is_manager = false →
        (∀ p, p ∈ dashboard store user ↔
            p ∈ store.projects ∧
              ∃ t ∈ store.tasks, t.project = p.id ∧ t.assigned_to = some user.id) ∧
        (dashboard store user).Nodup) := by
  refine ⟨fun hA => ?_, fun hA hM => ?_, fun hA hM => ?_⟩
  · rw [dashboard]
    simp only [hA, if_true]
    exact ⟨List.perm_insertionSort _ _, List.sorted_insertionSort _ _⟩
  · intro p
    rw [dashboard]
    simp [hA, hM, orderByCreatedDesc, List.mem_filter]
  · constructor
    · intro p
      rw [dashboard]
      simp [hA, hM, orderByCreatedDesc, List.mem_filter, List.any_eq_true,
        and_assoc]
    · rw [dashboard]
      simp only [hA, hM, Bool.false_eq_true, if_false, orderByCreatedDesc]
      rw [(List.perm_insertionSort _ _).nodup_iff]
      exact (List.Nodup.of_map _ hids).filter _

/-- Witness for C2 at the concrete store `baseStore` and plain user
`uDave`: the plain-user listing is duplicate-free and contains project 1
(which has two tasks assigned to Dave) but not project 2. -/
theorem C2_dashboard_witness :
    (pAlpha ∈ dashboard baseStore uDave ↔
        pAlpha ∈ baseStore.projects ∧
          ∃ t ∈ baseStore.tasks,
            t.project = pAlpha.id ∧ t.assigned_to = some uDave.id) ∧
    (dashboard baseStore uDave).Nodup := by
  have h := (C2_dashboard baseStore uDave (by decide)).2.2 (by decide) (by decide)
  exact ⟨h.1 pAlpha, h.2⟩

/-- C3: a login submission with action "admin" by a user with correct,
well-formed credentials who is neither staff nor superuser nor in the
"Admin" group authenticates successfully but establishes no session,
surfaces the permission-denied message, and re-renders the login page
instead of redirecting to the dashboard. -/
theorem C3_admin_login_rejected (users : List DjUser) (username password : String)
    (u : DjUser) (hn : username ≠ "") (hp : password ≠ "")
    (hauth : authenticate users username password = some u)
    (hstaff : u.is_staff = false) (hsuper : u.is_superuser = false)
    (hgrp : "Admin" ∉ u.groups) :
    authenticate users username password = some u ∧
    (user_login users Method.post username password "admin").sessionUser = none ∧
    (user_login users Method.post username password "admin").response =
      LoginResponse.renderLogin ∧
    (user_login users Method.post username password "admin").messages =
      ["You are not allowed to login as admin."] := by
  have hvalid : authFormIsValid users username password = true := by
    simp [authFormIsValid, hn, hp, hauth]
  have hadm : (u.is_staff || u.is_superuser || u.groups.contains "Admin") = false := by
    simp [hstaff, hsuper, hgrp]
  rw [user_login]
  simp [hvalid, hauth, hadm, hstaff, hsuper, hgrp]

/-- Witness for C3: Dave (plain user) submits correct credentials with the
admin action against the base user table. -/
theorem C3_admin_login_rejected_witness :
    authenticate baseStore.users "dave" "pw4" = some uDave ∧
    (user_login baseStore.users Method.post "dave" "pw4" "admin").sessionUser = none ∧
    (user_login baseStore.users Method.post "dave" "pw4" "admin").response =
      LoginResponse.renderLogin ∧
    (user_login baseStore.users Method.post "dave" "pw4" "admin").messages =
      ["You are not allowed to login as admin."] :=
  C3_admin_login_rejected baseStore.users "dave" "pw4" uDave (by decide)
    (by decide) (by decide) (by decide) (by decide) (by decide)

/-- C4: an authenticated caller with both role flags false leaves the
store unchanged when invoking project creation (message plus redirect to
the dashboard) or task creation on an existing project (message plus
redirect to that project's detail page); zero records are produced. -/
theorem C4_permission_denied (store : Store) (user : DjUser) (m : Method)
    (dP : ProjectPostData) (dT : TaskPostData) (pk now now2 : Nat) (p : Project)
    (hA : (get_user_flags (some user)).is_admin = false)
    (hM : (get_user_flags (some user)).is_manager = false)
    (hfind : store.projects.find? (fun q => q.id == pk) = some p) :
    (create_project store user m dP now).store = store ∧
    (create_project store user m dP now).response = CPResponse.permissionRedirect ∧
    (create_project store user m dP now).messages =
      ["You don't have permission to create a project."] ∧
    (create_task store user pk m dT now2).store = store ∧
    (create_task store user pk m dT now2).response =
      CTResponse.permissionRedirect pk ∧
    (create_task store user pk m dT now2).messages =
      ["You don't have permission to add a task."] := by
  have hpk : p.id = pk := by
    have := List.find?_some hfind
    simpa using this
  rw [create_project.eq_def, create_task.eq_def]
  simp [hA, hM, hfind, hpk]

/-- Witness for C4: Dave (no roles) attempts both creations against the
base store, with project 1 existing. -/
theorem C4_permission_denied_witness :
    (create_project baseStore uDave Method.post
        { name := some "N", description := none, manager := none } 7).store =
      baseStore ∧
    (create_project baseStore uDave Method.post
        { name := some "N", description := none, manager := none } 7).response =
      CPResponse.permissionRedirect ∧
    (create_project baseStore uDave Method.post
        { name := some "N", description := none, manager := none } 7).messages =
      ["You don't have permission to create a project."] ∧
    (create_task baseStore uDave 1 Method.post
        { title := some "T", description := none, assigned_to := none } 8).store =
      baseStore ∧
    (create_task baseStore uDave 1 Method.post
        { title := some "T", description := none, assigned_to := none } 8).response =
      CTResponse.permissionRedirect 1 ∧
    (create_task baseStore uDave 1 Method.post
        { title := some "T", description := none, assigned_to := none } 8).messages =
      ["You don't have permission to add a task."] :=
  C4_permission_denied baseStore uDave Method.post
    { name := some "N", description := none, manager := none }
    { title := some "T", description := none, assigned_to := none }
    1 7 8 pAlpha (by decide) (by decide) (by decide)

/-- C5: for every request, the task table after `create_task` is either
unchanged or extended by exactly one task whose `project` foreign key is
the project id from the request URL — whatever the submitted form data —
and `create_project` never touches the task table, so no existing task's
project reference is ever reassigned by this logic layer. -/
theorem C5_task_project_invariant (store : Store) (user : DjUser) (pk : Nat)
    (m : Method) (dT : TaskPostData) (dP : ProjectPostData) (now now2 : Nat) :
    ((create_task store user pk m dT now).store.tasks = store.tasks ∨
      ∃ t, (create_task store user pk m dT now).store.tasks = store.tasks ++ [t] ∧
        t.project = pk) ∧
    (create_project store user m dP now2).store.tasks = store.tasks := by
  constructor
  · rw [create_task.eq_def]
    cases hfind : store.projects.find? (fun p => p.id == pk) with
    | none => simp
    | some p =>
        have hpk : p.id = pk := by simpa using List.find?_some hfind
        by_cases hperm : ((get_user_flags (some user)).is_admin
            || (get_user_flags (some user)).is_manager) = true
        · cases m <;> by_cases hv : taskFormIsValid store dT = true <;>
            simp [hperm, hv, taskFromForm, hpk]
        · cases m <;> simp [Bool.eq_false_iff.mpr hperm]
  · rw [create_project.eq_def]
    by_cases hperm : ((get_user_flags (some user)).is_admin
        || (get_user_flags (some user)).is_manager) = true
    · cases m <;> by_cases hv : projectFormIsValid store dP = true <;>
        simp [hperm, hv]
    · cases m <;> simp [Bool.eq_false_iff.mpr hperm]

/-- C10: every task record produced by `create_task` has status "todo" and
no due date, for every submitted form input: the task form exposes only
title, description and assigned_to, so the model defaults always apply. -/
theorem C10_task_defaults (store : Store) (user : DjUser) (pk : Nat)
    (m : Method) (d : TaskPostData) (now : Nat) :
    (create_task store user pk m d now).store.tasks = store.tasks ∨
    ∃ t, (create_task store user pk m d now).store.tasks = store.tasks ++ [t] ∧
      t.status = "todo" ∧ t.due_date = none := by
  rw [create_task.eq_def]
  cases hfind : store.projects.find? (fun p => p.id == pk) with
  | none => simp
  | some p =>
      by_cases hperm : ((get_user_flags (some user)).is_admin
          || (get_user_flags (some user)).is_manager) = true
      · cases m <;> by_cases hv : taskFormIsValid store d = true <;>
          simp [hperm, hv, taskFromForm]
      · cases m <;> simp [Bool.eq_false_iff.mpr hperm]

/-- C8: for every authenticated caller and project id, both the
project-detail handler and the task-creation handler 404 when the id
resolves to no project (the latter leaving the store unchanged); when it
resolves, project detail returns that project with its full task set —
every task whose project reference is the project, with no role or
ownership filtering — and the page is identical for every authenticated
identity. -/
theorem C8_project_detail (store : Store) (u u2 : DjUser) (pk : Nat)
    (m : Method) (dT : TaskPostData) (now : Nat) :
    (store.projects.find? (fun p => p.id == pk) = none →
        project_detail store u pk = DetailResponse.notFound ∧
        (create_task store u pk m dT now).response = CTResponse.notFound ∧
        (create_task store u pk m dT now).store = store) ∧
    (∀ p, store.projects.find? (fun q => q.id == pk) = some p →
        project_detail store u pk = DetailResponse.page p (tasksOf store p.id) ∧
        (∀ t, t ∈ tasksOf store p.id ↔ t ∈ store.tasks ∧ t.project = p.id) ∧
        project_detail store u pk = project_detail store u2 pk) := by
  constructor
  · intro hnone
    rw [project_detail, create_task.eq_def]
    simp [hnone]
  · intro p hfind
    rw [project_detail]
    refine ⟨by simp [hfind], fun t => ?_, rfl⟩
    simp [tasksOf, List.mem_filter]

/-- Witness for C8 at the base store: id 1 resolves to `pAlpha` and its
page lists exactly the tasks of project 1; id 99 resolves to nothing and
404s both handlers. -/
theorem C8_project_detail_witness :
    (project_detail baseStore uDave 99 = DetailResponse.notFound ∧
      (create_task baseStore uDave 99 Method.post
          { title := some "T", description := none, assigned_to := none } 8).response =
        CTResponse.notFound ∧
      (create_task baseStore uDave 99 Method.post
          { title := some "T", description := none, assigned_to := none } 8).store =
        baseStore) ∧
    (project_detail baseStore uDave 1 =
        DetailResponse.page pAlpha (tasksOf baseStore 1) ∧
      (tOne ∈ tasksOf baseStore 1 ↔ tOne ∈ baseStore.tasks ∧ tOne.project = 1) ∧
      project_detail baseStore uDave 1 = project_detail baseStore uCarol 1) := by
  constructor
  · exact (C8_project_detail baseStore uDave uCarol 99 Method.post
      { title := some "T", description := none, assigned_to := none } 8).1 (by decide)
  · have h := (C8_project_detail baseStore uDave uCarol 1 Method.post
      { title := some "T", description := none, assigned_to := none } 8).2 pAlpha (by decide)
    exact ⟨h.1, h.2.1 tOne, h.2.2⟩

/-- A submission with `name` present but `description` and `manager`
absent, used to refute C6 as stated. -/
def dNameOnly : ProjectPostData :=
  { name := some "Gamma", description := none, manager := none }

/-- C6 counterexample: the claim says a POST missing any of name,
description or manager fails validation and persists nothing; but the
staff admin Bob submitting only a name passes validation, persists a
project (with empty description and null manager), and is redirected to
the new project's detail page. -/
theorem C6_counterexample :
    projectFormIsValid baseStore dNameOnly = true ∧
    (create_project baseStore uBob Method.post dNameOnly 30).response =
      CPResponse.created 3 ∧
    (create_project baseStore uBob Method.post dNameOnly 30).store.projects =
      baseStore.projects ++
        [{ id := 3, name := "Gamma", description := "", manager := none,
           created_at := 30 }] := by
  decide

/-- C6 amended: for an authorized POST, only `name` is effectively
required (nonempty and within the 200-character bound, with a submitted
`manager` additionally required to resolve to an existing user);
submissions missing `description` or `manager` still validate.  An invalid
submission re-renders with errors and persists nothing; a valid one
persists exactly the formed project and redirects to its detail page. -/
theorem C6_validation (store : Store) (user : DjUser) (d : ProjectPostData)
    (now : Nat)
    (hz : (get_user_flags (some user)).is_admin = true ∨
      (get_user_flags (some user)).is_manager = true) :
    (projectFormIsValid store d = true ↔
        (d.name.getD "" ≠ "" ∧ (d.name.getD "").length ≤ 200 ∧
          ∀ uid, d.manager = some uid → ∃ u ∈ store.users, u.id = uid)) ∧
    (projectFormIsValid store d = false →
        (create_project store user Method.post d now).store = store ∧
        (create_project store user Method.post d now).response =
          CPResponse.invalidForm ∧
        (create_project store user Method.post d now).messages =
          ["Please fix the errors in the form."]) ∧
    (projectFormIsValid store d = true →
        (create_project store user Method.post d now).store.projects =
          store.projects ++ [projectFromForm store d now] ∧
        (create_project store user Method.post d now).response =
          CPResponse.created store.nextProjectId) := by
  have hperm : ((get_user_flags (some user)).is_admin
      || (get_user_flags (some user)).is_manager) = true := by
    rcases hz with h | h <;> simp [h]
  refine ⟨?_, fun hv => ?_, fun hv => ?_⟩
  · rw [projectFormIsValid]
    cases hm : d.manager with
    | none => simp [hm]
    | some uid => simp [hm, List.any_eq_true, and_assoc]
  · rw [create_project.eq_def]
    simp [hperm, hv]
  · rw [create_project.eq_def]
    simp [hperm, hv, projectFromForm]

/-- Witness for C6 (amended) : Bob's name-only submission validates and
is persisted as project 3. -/
theorem C6_validation_witness :
    (projectFormIsValid baseStore dNameOnly = true ↔
        (dNameOnly.name.getD "" ≠ "" ∧ (dNameOnly.name.getD "").length ≤ 200 ∧
          ∀ uid, dNameOnly.manager = some uid →
            ∃ u ∈ baseStore.users, u.id = uid)) ∧
    ((create_project baseStore uBob Method.post dNameOnly 30).store.projects =
        baseStore.projects ++ [projectFromForm baseStore dNameOnly 30] ∧
      (create_project baseStore uBob Method.post dNameOnly 30).response =
        CPResponse.created baseStore.nextProjectId) := by
  have h := C6_validation baseStore uBob dNameOnly 30 (Or.inl (by decide))
  exact ⟨h.1, h.2.2 (by decide)⟩

/-- A submission with no `manager` field, sent by the manager Alice, used
to refute C7 as stated. -/
def dNoManager : ProjectPostData :=
  { name := some "X", description := some "d", manager := none }

/-- C7 counterexample: (i) Carol is an admin (besides being a manager),
yet her GET form is pre-filled with her own identity, contradicting
"pre-filled ... exactly when the caller is a manager and not an admin";
(ii) the manager Alice POSTs without a manager field and the persisted
record's manager is null, not Alice, contradicting "produces a record
whose manager equals the caller's identity". -/
theorem C7_counterexample :
    (get_user_flags (some uCarol)).is_admin = true ∧
    (create_project baseStore uCarol Method.get dNoManager 0).response =
      CPResponse.emptyForm (some 3) ∧
    (get_user_flags (some uAlice)).is_manager = true ∧
    (create_project baseStore uAlice Method.post dNoManager 40).store.projects =
      baseStore.projects ++
        [{ id := 3, name := "X", description := "d", manager := none,
           created_at := 40 }] := by
  decide

/-- C7 amended: on GET the form's manager field is pre-filled with the
caller exactly when the caller is a manager — whether or not also an
admin — and is empty otherwise; the pre-fill only supplies the rendered
form's initial value, and a valid POST carrying no manager field persists
a record whose manager is null. -/
theorem C7_prefill (store : Store) (user : DjUser) (d : ProjectPostData)
    (now : Nat)
    (hz : (get_user_flags (some user)).is_admin = true ∨
      (get_user_flags (some user)).is_manager = true) :
    ((get_user_flags (some user)).is_manager = true →
        (create_project store user Method.get d now).response =
          CPResponse.emptyForm (some user.id)) ∧
    ((get_user_flags (some user)).is_manager = false →
        (create_project store user Method.get d now).response =
          CPResponse.emptyForm none) ∧
    (d.manager = none → projectFormIsValid store d = true →
        (create_project store user Method.post d now).store.projects =
          store.projects ++ [projectFromForm store d now] ∧
        (projectFromForm store d now).manager = none) := by
  have hperm : ((get_user_flags (some user)).is_admin
      || (get_user_flags (some user)).is_manager) = true := by
    rcases hz with h | h <;> simp [h]
  refine ⟨fun hM => ?_, fun hM => ?_, fun hm hv => ?_⟩
  · rw [create_project.eq_def]
    simp [hperm, hM]
  · have hA : (get_user_flags (some user)).is_admin = true := by
      simpa [hM] using hperm
    rw [create_project.eq_def]
    simp [hperm, hM, hA]
  · rw [create_project.eq_def]
    simp [hperm, hv, projectFromForm, hm]

/-- Witness for C7 (amended): Alice (manager, not admin) gets a pre-filled
GET form, and her manager-less valid POST persists a record with null
manager. -/
theorem C7_prefill_witness :
    ((create_project baseStore uAlice Method.get dNoManager 0).response =
        CPResponse.emptyForm (some uAlice.id)) ∧
    ((create_project baseStore uAlice Method.post dNoManager 40).store.projects =
        baseStore.projects ++ [projectFromForm baseStore dNoManager 40] ∧
      (projectFromForm baseStore dNoManager 40).manager = none) := by
  have h := C7_prefill baseStore uAlice dNoManager 40 (Or.inr (by decide))
  exact ⟨by simpa using h.1 (by decide), h.2.2 (by decide) (by decide)⟩

/-- The empty environment: no variable set. -/
def emptyEnv : String → Option String := fun _ => none

/-- C9 counterexample: with no SECRET_KEY in the environment, settings
evaluation still succeeds — the process starts, using the hardcoded
fallback key of `settings.py` line 13 — contradicting "the process fails
fast and refuses to start". -/
theorem C9_counterexample :
    (loadSettings emptyEnv).isSome = true ∧
    loadSettings emptyEnv =
      some { secretKey := DEFAULT_SECRET_KEY, debug := false,
             allowedHosts := ["127.0.0.1", "localhost"] } := by
  constructor
  · rfl
  · decide

/-- C9 amended: configuration is read from the environment at startup and
settings evaluation always succeeds; when the secret key is absent the
hardcoded fallback key is used (no fail-fast), and when present its value
is taken. -/
theorem C9_settings (env : String → Option String) :
    (loadSettings env).isSome = true ∧
    (env "SECRET_KEY" = none →
        ∃ s, loadSettings env = some s ∧ s.secretKey = DEFAULT_SECRET_KEY) ∧
    (∀ k, env "SECRET_KEY" = some k →
        ∃ s, loadSettings env = some s ∧ s.secretKey = k) := by
  refine ⟨rfl, fun h => ⟨_, rfl, ?_⟩, fun k h => ⟨_, rfl, ?_⟩⟩ <;>
    simp [h]

/-- Witness for C9 (amended) at the empty environment. -/
theorem C9_settings_witness :
    (loadSettings emptyEnv).isSome = true ∧
    ∃ s, loadSettings emptyEnv = some s ∧ s.secretKey = DEFAULT_SECRET_KEY := by
  have h := C9_settings emptyEnv
  exact ⟨h.1, h.2.1 rfl⟩

end Taskmanager
